import Mathlib

/-!
Verification of the storage shim (`s3.py`) and the dashboard column
classification (`view.py`) of the repository, as a shallow embedding.

The storage shim is `class Storage` in `s3.py`: URI classification
(`is_s3_path`), key resolution (`get_arrow_path`), environment-based
construction (`from_env`), and parquet read/write (`read_parquet`,
`write_parquet`).  Calls into the third-party SDKs (pyarrow, polars) are
modelled as operations on an explicit filesystem state `FS`, following the
documented contract of each SDK call; the shim's own branching and path
arithmetic is translated directly from the source.

Python string operations used by the source (`str.startswith`,
`str.replace`, `str.lstrip`, `os.path.join`, `os.path.dirname`) are
embedded as executable functions over `String.data`.
-/

/-- Polars data types, as far as the dashboard code in `view.py` inspects
them: `dtype.is_numeric()`, `dtype in [pl.String, pl.Boolean]`,
`dtype.is_temporal()`, and a catch-all for everything else. -/
inductive DType where
  | int8 | int16 | int32 | int64
  | uint8 | uint16 | uint32 | uint64
  | float32 | float64 | decimal
  | string | boolean
  | date | datetime | time | duration
  | binary | categorical | list | struct | null | object
deriving DecidableEq, Repr

/-- Models `polars.DataType.is_numeric`: integer, float and decimal types. -/
def DType.is_numeric : DType → Bool
  | .int8 | .int16 | .int32 | .int64 => true
  | .uint8 | .uint16 | .uint32 | .uint64 => true
  | .float32 | .float64 | .decimal => true
  | _ => false

/-- Models `polars.DataType.is_temporal`: date, datetime, time, duration. -/
def DType.is_temporal : DType → Bool
  | .date | .datetime | .time | .duration => true
  | _ => false

/-- An in-memory tabular dataset (a polars DataFrame / arrow table):
named, typed columns and row values.  Values are represented by their
string form, which is all the partition logic observes. -/
structure Table where
  cols : List String
  dtypes : List DType
  rows : List (List String)
deriving DecidableEq, Repr

/-- The configuration fields stored by `Storage.__init__` (s3.py lines
30-37).  The SDK client handles built by `_init_s3` / `_init_local_s3`
(`_session`, `_client`, `_s3_client`, `s3_fs`) carry no state observed by
the claims and are not represented. -/
structure Storage where
  profile_name : Option String
  access_key : Option String
  secret_key : Option String
  endpoint_url : Option String
  region_name : String
  verify_ssl : Bool ⊕ String
  local_s3 : Bool
  local_s3_dir : String
deriving DecidableEq, Repr

/-- Filesystem / object-store state threaded through the SDK calls:
`files` maps a path to the table stored there (most recent entry first),
`dirs` records directories created by `os.makedirs`. -/
structure FS where
  files : List (String × Table)
  dirs : List String
deriving DecidableEq, Repr

/-- Helper for `str.startswith`: list-level check that `pat` is an initial
segment of `s`. -/
def isPre : List Char → List Char → Bool
  | [], _ => true
  | _ :: _, [] => false
  | p :: ps, c :: cs => if p = c then isPre ps cs else false

/-- Models Python `s.startswith(pat)`. -/
def str_startswith (s pat : String) : Bool :=
  isPre pat.data s.data

/-- Fuel-driven worker for `str.replace`: replaces every non-overlapping
occurrence of `pat`, scanning left to right, exactly as Python does.  One
unit of fuel is spent per input character, so fuel `s.length` is always
enough. -/
def replFuel (pat repl : List Char) : Nat → List Char → List Char
  | _, [] => []
  | 0, s => s
  | fuel + 1, c :: cs =>
    if pat ≠ [] ∧ isPre pat (c :: cs) = true then
      repl ++ replFuel pat repl fuel ((c :: cs).drop pat.length)
    else
      c :: replFuel pat repl fuel cs

/-- Models Python `s.replace(pat, repl)` (all occurrences). -/
def str_replace (s pat repl : String) : String :=
  ⟨replFuel pat.data repl.data s.data.length s.data⟩

/-- Models Python `s.lstrip("/")`: drop every leading `/`. -/
def lstrip_slash (s : String) : String :=
  ⟨s.data.dropWhile (fun c => c = '/')⟩

/-- Models `os.path.join(a, b)` (posix, two arguments): an absolute `b`
wins; otherwise concatenate, inserting a separator unless `a` is empty or
already ends with one. -/
def os_path_join (a b : String) : String :=
  if b.data.head? = some '/' then b
  else if a = "" ∨ a.data.getLast? = some '/' then a ++ b
  else a ++ "/" ++ b

/-- Models `os.path.dirname(p)` (posix): everything up to and including
the last `/`, with trailing separators stripped unless the head is all
separators. -/
def dirname (p : String) : String :=
  let cs := p.data
  match cs.reverse.findIdx? (fun c => c = '/') with
  | none => ""
  | some k =>
    let head := cs.take (cs.length - k)
    if head.all (fun c => c = '/') then ⟨head⟩
    else ⟨(head.reverse.dropWhile (fun c => c = '/')).reverse⟩

/-- Environment variable name constant (s3.py line 11). -/
def AWS_ACCESS_KEY_ID : String := "AWS_ACCESS_KEY_ID"

/-- Environment variable name constant (s3.py line 12). -/
def AWS_SECRET_ACCESS_KEY : String := "AWS_SECRET_ACCESS_KEY"

/-- Environment variable name constant (s3.py line 13). -/
def AWS_PROFILE : String := "AWS_PROFILE"

/-- Environment variable name constant (s3.py line 14). -/
def AWS_ENDPOINT_URL : String := "AWS_ENDPOINT_URL"

/-- Environment variable name constant (s3.py line 15). -/
def AWS_DEFAULT_REGION : String := "AWS_DEFAULT_REGION"

/-- Models `Storage.__init__`: stores each argument in the corresponding
field; `local_s3_dir` is normalised by
`os.path.abspath(os.path.expanduser(...))`, whose result depends on the
process environment and is abstracted by the `expandAbs` parameter
(its output is always an absolute path). -/
def Storage.init (expandAbs : String → String)
    (profile_name access_key secret_key endpoint_url : Option String)
    (region_name : String) (verify_ssl : Bool ⊕ String)
    (local_s3 : Bool) (local_s3_dir : String) : Storage :=
  { profile_name := profile_name
    access_key := access_key
    secret_key := secret_key
    endpoint_url := endpoint_url
    region_name := region_name
    verify_ssl := verify_ssl
    local_s3 := local_s3
    local_s3_dir := expandAbs local_s3_dir }

/-- Models `Storage.from_env`: reads the five named environment variables
(`env` maps a variable name to its value, `none` when unset), defaulting
the region to `"us-east-1"`, then delegates to the primary constructor.
The remaining keyword arguments (`verify_ssl`, `local_s3`,
`local_s3_dir`) are passed through unchanged. -/
def Storage.from_env (expandAbs : String → String) (env : String → Option String)
    (verify_ssl : Bool ⊕ String) (local_s3 : Bool) (local_s3_dir : String) : Storage :=
  Storage.init expandAbs
    (env AWS_PROFILE)
    (env AWS_ACCESS_KEY_ID)
    (env AWS_SECRET_ACCESS_KEY)
    (env AWS_ENDPOINT_URL)
    ((env AWS_DEFAULT_REGION).getD "us-east-1")
    verify_ssl local_s3 local_s3_dir

/-- Models `Storage.is_s3_path`: true iff the string starts with
`"s3://"`.  The method reads nothing from `self`; the `Storage` argument
is kept to mirror the method signature. -/
def is_s3_path (s : Storage) (path : String) : Bool :=
  str_startswith path "s3://"

/-- The `ValueError` message raised by `get_arrow_path` for an input
without the scheme, with the offending URI interpolated (s3.py lines
106-109). -/
def invalidUriMsg (uri : String) : String :=
  "Invalid URI: \x27" ++ uri ++ "\x27. Storage interface strictly requires \x27s3://\x27 prefix to ensure environment-agnostic path management."

/-- The key computed by `get_arrow_path` once the scheme check has
passed: remove the scheme via `str.replace` (all occurrences), strip
leading separators, and in emulation mode join onto the emulation root
directory (s3.py lines 110-113). -/
def arrowTarget (s : Storage) (uri : String) : String :=
  let raw_path := lstrip_slash (str_replace uri "s3://" "")
  if s.local_s3 then os_path_join s.local_s3_dir raw_path else raw_path

/-- Models `Storage.get_arrow_path`: reject inputs without the scheme
with a `ValueError` (the `Except.error` case), otherwise resolve the
backend key. -/
def get_arrow_path (s : Storage) (uri : String) : Except String String :=
  if is_s3_path s uri then .ok (arrowTarget s uri) else .error (invalidUriMsg uri)

/-- Modelled from the spec (for comparison with `get_arrow_path`): the
spec's description of key resolution, "strips exactly one leading
occurrence of the prefix and then all leading `/` separators, leaving the
rest of the string unchanged" — drop the five scheme characters, then
leading separators. -/
def spec_resolve_key (uri : String) : String :=
  lstrip_slash ⟨uri.data.drop 5⟩

/-- Lookup in the file store: the most recently written entry for a path
wins. -/
def lookup_file : List (String × Table) → String → Option Table
  | [], _ => none
  | (k, t) :: rest, key => if k = key then some t else lookup_file rest key

/-- The value of column `c` in a row, via the column's position in the
table header (empty when the column is absent). -/
def col_value (cols : List String) (row : List String) (c : String) : String :=
  match cols.findIdx? (fun x => x = c) with
  | some i => row.getD i ""
  | none => ""

/-- The hive-encoded partition directory for a row: one `key=value`
segment per partition column, in partition-column order. -/
def hive_part_dir (cols pcols : List String) (row : List String) : String :=
  String.intercalate "/" (pcols.map (fun c => c ++ "=" ++ col_value cols row c))

/-- The path of the data file written inside one partition directory
(`basename_template="part-{i}.parquet"` with a single file per touched
partition). -/
def part_file_path (base key : String) : String :=
  base ++ "/" ++ key ++ "/part-0.parquet"

/-- The sub-table of rows falling into the partition directory `key`. -/
def part_rows (df : Table) (pcols : List String) (key : String) : Table :=
  { df with rows := df.rows.filter (fun r => hive_part_dir df.cols pcols r = key) }

/-- Models `pyarrow.dataset.write_dataset(..., partitioning_flavor="hive",
existing_data_behavior="overwrite_or_ignore")`: for every partition
directory touched by a row of `df`, the partition's data file now holds
that partition's rows; every other path keeps its previous content (one
entry is pushed per row; rows sharing a partition push identical entries
and `lookup_file` observes only the first). -/
def write_dataset (fs : FS) (base : String) (df : Table) (pcols : List String) : FS :=
  { fs with
    files :=
      (df.rows.map (fun r =>
        (part_file_path base (hive_part_dir df.cols pcols r),
         part_rows df pcols (hive_part_dir df.cols pcols r)))) ++ fs.files }

/-- Models `Storage.scan_parquet` followed by `.collect()`: an
object-storage URI is resolved through `get_arrow_path` and read through
the configured filesystem (a missing dataset is a backend error,
propagated unchanged); any other string is read as a local parquet
file. -/
def scan_parquet (s : Storage) (fs : FS) (uri : String) : Except String Table :=
  if is_s3_path s uri then do
    let target ← get_arrow_path s uri
    match lookup_file fs.files target with
    | some t => .ok t
    | none => .error ("FileNotFoundError: " ++ target)
  else
    match lookup_file fs.files uri with
    | some t => .ok t
    | none => .error ("FileNotFoundError: " ++ uri)

/-- Models `Storage.read_parquet`: `scan_parquet(uri).collect()`. -/
def read_parquet (s : Storage) (fs : FS) (uri : String) : Except String Table :=
  scan_parquet s fs uri

/-- Models `Storage.write_parquet`.  A non-`s3://` URI is written as a
single local parquet file, ignoring `partition_cols` (s3.py lines
141-143).  For an `s3://` URI the key is resolved; with partition
columns the table goes through `pyarrow.dataset.write_dataset` (lines
151-162), otherwise `os.makedirs(dirname, exist_ok=True)` runs first in
emulation mode only, and a single file is written (lines 163-166).
`partition_cols = []` plays the part of Python's `None`/empty list (both
falsy); the source normalises a single string to a one-element list. -/
def write_parquet (s : Storage) (fs : FS) (df : Table) (uri : String)
    (partition_cols : List String) : Except String FS :=
  if is_s3_path s uri = false then
    .ok { fs with files := (uri, df) :: fs.files }
  else do
    let target ← get_arrow_path s uri
    if partition_cols ≠ [] then
      .ok (write_dataset fs target df partition_cols)
    else
      let fs1 := if s.local_s3 then { fs with dirs := dirname target :: fs.dirs } else fs
      .ok { fs1 with files := (target, df) :: fs1.files }

/-- `is_s3_path` as the source's method: returns its result and leaves
`self` as the method body does (no field is assigned anywhere in the
method). -/
def run_is_s3_path (s : Storage) (path : String) : Bool × Storage :=
  (is_s3_path s path, s)

/-- `get_arrow_path` as the source's method: result plus the unmodified
`self`. -/
def run_get_arrow_path (s : Storage) (uri : String) : Except String String × Storage :=
  (get_arrow_path s uri, s)

/-- `read_parquet` as the source's method: result plus the unmodified
`self`. -/
def run_read_parquet (s : Storage) (fs : FS) (uri : String) :
    Except String Table × Storage :=
  (read_parquet s fs uri, s)

/-- `write_parquet` as the source's method: result plus the unmodified
`self`. -/
def run_write_parquet (s : Storage) (fs : FS) (df : Table) (uri : String)
    (partition_cols : List String) : Except String FS × Storage :=
  (write_parquet s fs df uri partition_cols, s)

/-- The four column groups built by `ColumnPlot.update_source`
(view.py lines 34-52), keyed "Numerical", "String / Boolean",
"Temporal", "Others" in the source dict. -/
structure ColumnGroups where
  numerical : List String
  stringBoolean : List String
  temporal : List String
  others : List String
deriving DecidableEq, Repr

/-- One iteration of the classification loop of
`ColumnPlot.update_source`: the column name is appended to exactly one
group, chosen by the `if`/`elif`/`else` chain over its declared dtype
(view.py lines 41-52). -/
def update_source_step (g : ColumnGroups) (p : String × DType) : ColumnGroups :=
  if p.2.is_numeric then { g with numerical := g.numerical ++ [p.1] }
  else if p.2 = DType.string ∨ p.2 = DType.boolean then
    { g with stringBoolean := g.stringBoolean ++ [p.1] }
  else if p.2.is_temporal then { g with temporal := g.temporal ++ [p.1] }
  else { g with others := g.others ++ [p.1] }

/-- Models the classification loop of `ColumnPlot.update_source` over the
table's columns in order. -/
def update_source (cols : List (String × DType)) : ColumnGroups :=
  cols.foldl update_source_step ⟨[], [], [], []⟩

/-- A live-mode `Storage` used as a concrete instance in witnesses and
counterexamples. -/
def s0 : Storage :=
  ⟨none, none, none, none, "us-east-1", Sum.inl true, false, "/root"⟩

/-- An emulation-mode `Storage` (root `/data`) used as a concrete
instance in witnesses. -/
def s0em : Storage :=
  ⟨none, none, none, none, "us-east-1", Sum.inl true, true, "/data"⟩

/-- A two-row table used as a concrete instance in witnesses. -/
def df0 : Table :=
  ⟨["k", "v"], [DType.string, DType.int64], [["a", "1"], ["b", "2"]]⟩

/-- A filesystem holding one pre-existing partition `k=z`, used as a
concrete instance in witnesses. -/
def fs0 : FS :=
  ⟨[("bkt/data/k=z/part-0.parquet",
     ⟨["k", "v"], [DType.string, DType.int64], [["z", "9"]]⟩)], []⟩

/-- The environment with every variable unset, for witnesses. -/
def env0 : String → Option String := fun _ => none

theorem get_arrow_path_ok (s : Storage) (uri : String) (h : is_s3_path s uri = true) :
    get_arrow_path s uri = .ok (arrowTarget s uri) := by
  simp [get_arrow_path, h]

theorem except_bind_ok {ε α β : Type} (a : α) (f : α → Except ε β) :
    (Except.ok a >>= f : Except ε β) = f a := rfl

theorem lookup_file_append_of_ne (L old : List (String × Table)) (p : String)
    (h : ∀ e ∈ L, e.1 ≠ p) : lookup_file (L ++ old) p = lookup_file old p := by
  induction L with
  | nil => rfl
  | cons e L ih =>
    obtain ⟨k, t⟩ := e
    have hk : k ≠ p := h ⟨k, t⟩ (List.mem_cons_self _ _)
    simp only [List.cons_append, lookup_file, if_neg hk]
    exact ih (fun e he => h e (List.mem_cons_of_mem _ he))

theorem part_file_path_inj {base k1 k2 : String}
    (h : part_file_path base k1 = part_file_path base k2) : k1 = k2 := by
  have hd : (part_file_path base k1).data = (part_file_path base k2).data := by rw [h]
  simp only [part_file_path, String.data_append, List.append_assoc] at hd
  have h1 := List.append_cancel_left hd
  have h2 := List.append_cancel_left h1
  have h3 := List.append_cancel_right h2
  exact String.ext h3

theorem lookup_map_part (base : String) (keyf : List String → String)
    (groupf : String → Table) (old : List (String × Table)) :
    ∀ (l : List (List String)) (r : List String), r ∈ l →
      lookup_file
        ((l.map (fun x => (part_file_path base (keyf x), groupf (keyf x)))) ++ old)
        (part_file_path base (keyf r)) = some (groupf (keyf r)) := by
  intro l
  induction l with
  | nil => intro r hr; exact absurd hr (List.not_mem_nil r)
  | cons x l ih =>
    intro r hr
    by_cases hx : part_file_path base (keyf x) = part_file_path base (keyf r)
    · have hkey : keyf x = keyf r := part_file_path_inj hx
      simp [lookup_file, hx, hkey]
    · simp only [List.map_cons, List.cons_append, lookup_file, if_neg hx]
      rcases List.mem_cons.mp hr with hrx | hrl
      · exact absurd (by rw [hrx]) hx
      · exact ih r hrl

theorem dropWhile_head_not (p : Char → Bool) :
    ∀ (l : List Char) (c : Char), (l.dropWhile p).head? = some c → p c = false := by
  intro l
  induction l with
  | nil => intro c hc; simp [List.dropWhile] at hc
  | cons a l ih =>
    intro c hc
    by_cases ha : p a
    · exact ih c (by simpa [List.dropWhile, ha] using hc)
    · have : a = c := by simpa [List.dropWhile, ha] using hc
      simpa [this] using ha

theorem os_path_join_pre (a b : String) (hb : b.data.head? ≠ some '/') :
    ∃ rest, os_path_join a b = a ++ rest := by
  unfold os_path_join
  rw [if_neg hb]
  by_cases h2 : a = "" ∨ a.data.getLast? = some '/'
  · exact ⟨b, by rw [if_pos h2]⟩
  · exact ⟨"/" ++ b, by rw [if_neg h2, String.append_assoc]⟩

theorem lstrip_slash_head_ne (s : String) :
    (lstrip_slash s).data.head? ≠ some '/' := by
  intro hc
  have := dropWhile_head_not (fun c => c = '/') s.data '/' hc
  simp at this

theorem update_source_count (a : String) :
    ∀ (cols : List (String × DType)) (g : ColumnGroups),
      (cols.foldl update_source_step g).numerical.count a +
      (cols.foldl update_source_step g).stringBoolean.count a +
      (cols.foldl update_source_step g).temporal.count a +
      (cols.foldl update_source_step g).others.count a =
      g.numerical.count a + g.stringBoolean.count a +
      g.temporal.count a + g.others.count a + (cols.map Prod.fst).count a := by
  intro cols
  induction cols with
  | nil => intro g; simp
  | cons p l ih =>
    intro g
    simp only [List.foldl_cons, List.map_cons]
    rw [ih]
    unfold update_source_step
    by_cases hpa : a = p.1 <;>
      by_cases h1 : p.2.is_numeric = true <;>
        by_cases h2 : p.2 = DType.string ∨ p.2 = DType.boolean <;>
          by_cases h3 : p.2.is_temporal = true <;>
            simp [h1, h2, h3, hpa, List.count_append, List.count_cons,
              List.count_nil, List.count_singleton] <;>
            omega

/-- C1: for every input string that does not start with the scheme
`"s3://"`, `get_arrow_path` fails with the invalid-argument error whose
message interpolates the offending URI, for every `Storage`
configuration — in particular regardless of `local_s3` (emulation)
mode. -/
theorem c1_get_arrow_path_rejects_missing_scheme (s : Storage) (uri : String)
    (h : str_startswith uri "s3://" = false) :
    get_arrow_path s uri = .error (invalidUriMsg uri) ∧
    ∃ a b, invalidUriMsg uri = a ++ uri ++ b := by
  refine ⟨?_, ?_⟩
  · simp [get_arrow_path, is_s3_path, h]
  · exact ⟨"Invalid URI: \x27",
      "\x27. Storage interface strictly requires \x27s3://\x27 prefix to ensure environment-agnostic path management.",
      rfl⟩

/-- C1 witness: the claim instantiated at a local path, in live mode. -/
theorem c1_witness :
    get_arrow_path s0 "/tmp/data.parquet" = .error (invalidUriMsg "/tmp/data.parquet") :=
  (c1_get_arrow_path_rejects_missing_scheme s0 "/tmp/data.parquet" (by decide)).1

/-- C2 counterexample: the claim says key resolution strips exactly one
leading occurrence of the scheme and leaves the rest of the string
unchanged; the code's `str.replace("s3://", "")` strips every
occurrence.  On `"s3://a/s3://b"` the code yields `"a/b"`, while
one-leading-strip semantics (`spec_resolve_key`) yields
`"a/s3://b"`. -/
theorem c2_counterexample :
    get_arrow_path s0 "s3://a/s3://b" = .ok "a/b" ∧
    spec_resolve_key "s3://a/s3://b" = "a/s3://b" ∧
    ("a/b" : String) ≠ "a/s3://b" :=
  ⟨rfl, by decide, by decide⟩

/-- C2 (amended): for every input starting with `"s3://"`,
`get_arrow_path` succeeds with the key obtained by removing every
occurrence of `"s3://"` and then all leading `/` separators; in live
mode that key is returned as is, and in emulation mode the result is the
key joined under the configured root directory, so it begins with that
root, and it is an absolute path whenever the root is absolute (which
`os.path.abspath` in the constructor guarantees). -/
theorem c2_get_arrow_path_strips_all_occurrences (s : Storage) (uri : String)
    (h : str_startswith uri "s3://" = true) :
    get_arrow_path s uri = .ok (arrowTarget s uri) ∧
    (s.local_s3 = false → arrowTarget s uri = lstrip_slash (str_replace uri "s3://" "")) ∧
    (s.local_s3 = true →
      (∃ rest, arrowTarget s uri = s.local_s3_dir ++ rest) ∧
      (∀ d, s.local_s3_dir = "/" ++ d → ∃ rest, arrowTarget s uri = "/" ++ rest)) := by
  refine ⟨by simp [get_arrow_path, is_s3_path, h], ?_, ?_⟩
  · intro hl
    simp [arrowTarget, hl]
  · intro hl
    have hb := lstrip_slash_head_ne (str_replace uri "s3://" "")
    obtain ⟨rest, hr⟩ := os_path_join_pre s.local_s3_dir _ hb
    have ht : arrowTarget s uri = s.local_s3_dir ++ rest := by
      simpa [arrowTarget, hl] using hr
    refine ⟨⟨rest, ht⟩, ?_⟩
    intro d hd
    exact ⟨d ++ rest, by rw [ht, hd, String.append_assoc]⟩

/-- C2 witness: the amended claim instantiated in emulation mode. -/
theorem c2_witness :
    get_arrow_path s0em "s3://bkt/key" = .ok (arrowTarget s0em "s3://bkt/key") :=
  (c2_get_arrow_path_strips_all_occurrences s0em "s3://bkt/key" (by decide)).1

/-- C6: the configuration produced by `Storage.from_env` takes its
profile name, access key, secret key, endpoint URL and region verbatim
from the named environment variables, and the region defaults to
`"us-east-1"` when its variable is unset. -/
theorem c6_from_env_reads_environment (expandAbs : String → String)
    (env : String → Option String) (v : Bool ⊕ String) (l : Bool) (d : String) :
    (Storage.from_env expandAbs env v l d).profile_name = env AWS_PROFILE ∧
    (Storage.from_env expandAbs env v l d).access_key = env AWS_ACCESS_KEY_ID ∧
    (Storage.from_env expandAbs env v l d).secret_key = env AWS_SECRET_ACCESS_KEY ∧
    (Storage.from_env expandAbs env v l d).endpoint_url = env AWS_ENDPOINT_URL ∧
    (Storage.from_env expandAbs env v l d).region_name =
      (env AWS_DEFAULT_REGION).getD "us-east-1" ∧
    (env AWS_DEFAULT_REGION = none →
      (Storage.from_env expandAbs env v l d).region_name = "us-east-1") := by
  refine ⟨rfl, rfl, rfl, rfl, rfl, ?_⟩
  intro h
  simp [Storage.from_env, Storage.init, h]

/-- C6 witness: with every variable unset, the region defaults. -/
theorem c6_witness :
    (Storage.from_env id env0 (Sum.inl true) false "~").region_name = "us-east-1" :=
  (c6_from_env_reads_environment id env0 (Sum.inl true) false "~").2.2.2.2.2 rfl

/-- C7: `is_s3_path` is true exactly on strings starting with
`"s3://"`, and its result does not depend on the `Storage`
configuration. -/
theorem c7_is_s3_path_classification (s1 s2 : Storage) (p : String) :
    is_s3_path s1 p = is_s3_path s2 p ∧
    (is_s3_path s1 p = true ↔ str_startswith p "s3://" = true) :=
  ⟨rfl, Iff.rfl⟩

/-- C8: each operation of the shim — `is_s3_path`, `get_arrow_path`,
`read_parquet`, `write_parquet` — returns the `Storage` instance with
every configuration field unchanged (the method bodies assign no
field). -/
theorem c8_storage_config_immutable (s : Storage) (fs : FS) (df : Table)
    (p uri : String) (pcols : List String) :
    (run_is_s3_path s p).2 = s ∧
    (run_get_arrow_path s uri).2 = s ∧
    (run_read_parquet s fs uri).2 = s ∧
    (run_write_parquet s fs df uri pcols).2 = s :=
  ⟨rfl, rfl, rfl, rfl⟩

/-- C10: on a non-`s3://` URI, `write_parquet` writes the table as one
unpartitioned file at the local path and the `partition_cols` argument
is ignored: any two values of it produce the same result. -/
theorem c10_local_write_ignores_partition_cols (s : Storage) (fs : FS) (df : Table)
    (uri : String) (p1 p2 : List String) (h : is_s3_path s uri = false) :
    write_parquet s fs df uri p1 = .ok { fs with files := (uri, df) :: fs.files } ∧
    write_parquet s fs df uri p1 = write_parquet s fs df uri p2 := by
  constructor <;> simp [write_parquet, h]

/-- C10 witness: a local write with a partition column equals the same
write with none. -/
theorem c10_witness :
    write_parquet s0 fs0 df0 "out/data.parquet" ["k"] =
      write_parquet s0 fs0 df0 "out/data.parquet" [] :=
  (c10_local_write_ignores_partition_cols s0 fs0 df0 "out/data.parquet" ["k"] []
    (by decide)).2

/-- C3: writing a table with `write_parquet` (no partition columns) and
reading the same URI back with `read_parquet` returns the identical
table — same column names, dtypes and rows — for every `Storage`
configuration, so both for a local path and for an `s3://` URI in
emulation mode. -/
theorem c3_write_read_roundtrip (s : Storage) (fs : FS) (df : Table) (uri : String) :
    ∃ fs2, write_parquet s fs df uri [] = .ok fs2 ∧ read_parquet s fs2 uri = .ok df := by
  by_cases h : is_s3_path s uri = true
  · have hg := get_arrow_path_ok s uri h
    refine ⟨{ files := (arrowTarget s uri, df) :: fs.files,
              dirs := if s.local_s3 then dirname (arrowTarget s uri) :: fs.dirs
                      else fs.dirs }, ?_, ?_⟩
    · cases hls : s.local_s3 <;> simp [write_parquet, h, hg, except_bind_ok, hls]
    · simp [read_parquet, scan_parquet, h, hg, except_bind_ok, lookup_file]
  · have h' : is_s3_path s uri = false := by simpa using h
    refine ⟨{ fs with files := (uri, df) :: fs.files }, ?_, ?_⟩
    · simp [write_parquet, h']
    · simp [read_parquet, scan_parquet, h', lookup_file]

/-- C4: on an `s3://` URI with a non-empty partition-column list,
`write_parquet` produces the hive-partitioned dataset write: every
partition directory touched by a row of the table now holds exactly that
partition's rows under its `key=value` path, every path other than the
touched partitions' data files keeps its previous content, and no
directory-creation happens. -/
theorem c4_write_partitioned_hive_frame (s : Storage) (fs : FS) (df : Table)
    (uri : String) (pcols : List String)
    (hs3 : is_s3_path s uri = true) (hp : pcols ≠ []) :
    write_parquet s fs df uri pcols = .ok (write_dataset fs (arrowTarget s uri) df pcols) ∧
    (∀ r ∈ df.rows,
      lookup_file (write_dataset fs (arrowTarget s uri) df pcols).files
        (part_file_path (arrowTarget s uri) (hive_part_dir df.cols pcols r)) =
      some (part_rows df pcols (hive_part_dir df.cols pcols r))) ∧
    (∀ p, (∀ r ∈ df.rows,
        p ≠ part_file_path (arrowTarget s uri) (hive_part_dir df.cols pcols r)) →
      lookup_file (write_dataset fs (arrowTarget s uri) df pcols).files p =
        lookup_file fs.files p) ∧
    (write_dataset fs (arrowTarget s uri) df pcols).dirs = fs.dirs := by
  refine ⟨?_, ?_, ?_, rfl⟩
  · have hg := get_arrow_path_ok s uri hs3
    simp [write_parquet, hs3, hg, except_bind_ok, hp]
  · intro r hr
    simpa [write_dataset] using
      lookup_map_part (arrowTarget s uri) (hive_part_dir df.cols pcols)
        (part_rows df pcols) fs.files df.rows r hr
  · intro p hp2
    show lookup_file (_ ++ fs.files) p = lookup_file fs.files p
    apply lookup_file_append_of_ne
    intro e he
    obtain ⟨r, hr, hre⟩ := List.mem_map.mp he
    have : e.1 = part_file_path (arrowTarget s uri) (hive_part_dir df.cols pcols r) := by
      rw [← hre]
    rw [this]
    exact (hp2 r hr).symm

/-- C4 witness: writing partitions `k=a`, `k=b` leaves the pre-existing
partition `k=z` untouched. -/
theorem c4_witness :
    lookup_file (write_dataset fs0 (arrowTarget s0 "s3://bkt/data") df0 ["k"]).files
        "bkt/data/k=z/part-0.parquet" =
      lookup_file fs0.files "bkt/data/k=z/part-0.parquet" :=
  (c4_write_partitioned_hive_frame s0 fs0 df0 "s3://bkt/data" ["k"]
    (by decide) (by decide)).2.2.1 "bkt/data/k=z/part-0.parquet" (by decide)

/-- C5: on an `s3://` URI without partition columns, `write_parquet`
writes the table as one file at the resolved key, and the parent
directory is created beforehand exactly when the instance is in
emulation mode; on the partitioned path no directory is ever created,
emulation mode included. -/
theorem c5_write_single_file_mkdir_only_emulated (s : Storage) (fs : FS) (df : Table)
    (uri : String) (pcols : List String) (hs3 : is_s3_path s uri = true) :
    (pcols = [] →
      write_parquet s fs df uri pcols =
        .ok { files := (arrowTarget s uri, df) :: fs.files,
              dirs := if s.local_s3 then dirname (arrowTarget s uri) :: fs.dirs
                      else fs.dirs }) ∧
    (pcols ≠ [] →
      write_parquet s fs df uri pcols = .ok (write_dataset fs (arrowTarget s uri) df pcols) ∧
      (write_dataset fs (arrowTarget s uri) df pcols).dirs = fs.dirs) := by
  have hg := get_arrow_path_ok s uri hs3
  constructor
  · intro he
    subst he
    cases hls : s.local_s3 <;> simp [write_parquet, hs3, hg, except_bind_ok, hls]
  · intro hne
    exact ⟨by simp [write_parquet, hs3, hg, except_bind_ok, hne], rfl⟩

/-- C5 witness: a non-partitioned emulation-mode write records the
parent directory and the single resolved file. -/
theorem c5_witness :
    write_parquet s0em fs0 df0 "s3://b/x.parquet" [] =
      .ok { files := (arrowTarget s0em "s3://b/x.parquet", df0) :: fs0.files,
            dirs := if s0em.local_s3 then
                      dirname (arrowTarget s0em "s3://b/x.parquet") :: fs0.dirs
                    else fs0.dirs } :=
  (c5_write_single_file_mkdir_only_emulated s0em fs0 df0 "s3://b/x.parquet" []
    (by decide)).1 rfl

/-- C9: when the table's column names are distinct (as a polars
DataFrame guarantees), every column lands in exactly one of the four
groups built by `update_source`: the counts of its name in the
numerical, string/boolean, temporal and other lists sum to one. -/
theorem c9_column_groups_partition (cols : List (String × DType))
    (h : (cols.map Prod.fst).Nodup) :
    ∀ p ∈ cols,
      (update_source cols).numerical.count p.1 +
      (update_source cols).stringBoolean.count p.1 +
      (update_source cols).temporal.count p.1 +
      (update_source cols).others.count p.1 = 1 := by
  intro p hp
  have hm : p.1 ∈ cols.map Prod.fst := List.mem_map_of_mem Prod.fst hp
  have hc : (cols.map Prod.fst).count p.1 = 1 := List.count_eq_one_of_mem h hm
  have hsum := update_source_count p.1 cols ⟨[], [], [], []⟩
  rw [hc] at hsum
  simpa [update_source] using hsum

/-- C9 witness: a four-column table with one column of each category. -/
theorem c9_witness :
    (update_source [("x", DType.int64), ("y", DType.string),
        ("z", DType.date), ("w", DType.list)]).numerical.count "x" +
    (update_source [("x", DType.int64), ("y", DType.string),
        ("z", DType.date), ("w", DType.list)]).stringBoolean.count "x" +
    (update_source [("x", DType.int64), ("y", DType.string),
        ("z", DType.date), ("w", DType.list)]).temporal.count "x" +
    (update_source [("x", DType.int64), ("y", DType.string),
        ("z", DType.date), ("w", DType.list)]).others.count "x" = 1 :=
  c9_column_groups_partition
    [("x", DType.int64), ("y", DType.string), ("z", DType.date), ("w", DType.list)]
    (by decide) ("x", DType.int64) (by decide)
